import Mathlib

/-!
Shallow embedding of the `modeling` renderer's core (camera controller,
resource caches, resize lifecycle, light set construction, material
fallback textures and the tangent-generation pass of the OBJ loader),
translated from `src/camera.rs`, `src/scene.rs`, `src/model.rs`,
`src/texture.rs`, `src/light.rs` and `src/collection.rs`.

`f32` arithmetic is idealized as real arithmetic (`ℝ`); quantities that the
program computes with exact integer or simple rational values are embedded
over `ℕ`/`ℚ` so they stay executable.  Rust's `normalize()` of a zero-length
vector produces NaN components; in the real-valued idealization division by
zero yields `0`, so zero-length-normalization questions are tracked
separately by recording the arguments of every `normalize()` call.
-/

/-- 3-component vector, standing for `cgmath::Vector3`/`Point3`. -/
structure V3 (α : Type) where
  x : α
  y : α
  z : α
deriving DecidableEq

instance {α : Type} [Add α] : Add (V3 α) :=
  ⟨fun a b => ⟨a.x + b.x, a.y + b.y, a.z + b.z⟩⟩

instance {α : Type} [Sub α] : Sub (V3 α) :=
  ⟨fun a b => ⟨a.x - b.x, a.y - b.y, a.z - b.z⟩⟩

instance {α : Type} [Neg α] : Neg (V3 α) :=
  ⟨fun a => ⟨-a.x, -a.y, -a.z⟩⟩

instance {α : Type} [Mul α] : HMul (V3 α) α (V3 α) :=
  ⟨fun v s => ⟨v.x * s, v.y * s, v.z * s⟩⟩

instance {α : Type} [Div α] : HDiv (V3 α) α (V3 α) :=
  ⟨fun v s => ⟨v.x / s, v.y / s, v.z / s⟩⟩

/-- `cgmath::InnerSpace::dot`. -/
def V3.dot {α : Type} [Mul α] [Add α] (a b : V3 α) : α :=
  a.x * b.x + a.y * b.y + a.z * b.z

/-- `cgmath::Vector3::cross`. -/
def V3.cross {α : Type} [Mul α] [Sub α] (a b : V3 α) : V3 α :=
  ⟨a.y * b.z - a.z * b.y, a.z * b.x - a.x * b.z, a.x * b.y - a.y * b.x⟩

/-- `cgmath::InnerSpace::magnitude2` (squared length). -/
def V3.magnitude2 {α : Type} [Mul α] [Add α] (v : V3 α) : α := v.dot v

/-- `cgmath::InnerSpace::magnitude` (`sqrt` of the squared length). -/
noncomputable def V3.magnitude (v : V3 ℝ) : ℝ := Real.sqrt v.magnitude2

/-- `cgmath::InnerSpace::normalize`: `v * (1 / |v|)`.  For `v = 0` the Rust
code divides by zero and produces NaN components; here `1/0 = 0`. -/
noncomputable def V3.normalize (v : V3 ℝ) : V3 ℝ := v * (1 / v.magnitude)

/-- 4-component vector, standing for `cgmath::Vector4` (used as quaternion
storage `(x, y, z, w)` by `camera.rs`). -/
structure V4 where
  x : ℝ
  y : ℝ
  z : ℝ
  w : ℝ

/-- Row-major 3×3 matrix standing for `cgmath::Matrix3`. -/
structure Mat3 where
  m00 : ℝ
  m01 : ℝ
  m02 : ℝ
  m10 : ℝ
  m11 : ℝ
  m12 : ℝ
  m20 : ℝ
  m21 : ℝ
  m22 : ℝ

instance : HMul Mat3 (V3 ℝ) (V3 ℝ) :=
  ⟨fun m v =>
    ⟨m.m00 * v.x + m.m01 * v.y + m.m02 * v.z,
     m.m10 * v.x + m.m11 * v.y + m.m12 * v.z,
     m.m20 * v.x + m.m21 * v.y + m.m22 * v.z⟩⟩

/-- `camera.rs::quartanion_matrix`.  The Rust code passes the entries to
`cgmath::Matrix3::new` in column-major order; the fields below are the
row-major entries of the same matrix. -/
noncomputable def quartanion_matrix (v : V4) : Mat3 :=
  let w := v.w
  let ww := w * w
  let x := v.x
  let xx := x * x
  let y := v.y
  let yy := y * y
  let z := v.z
  let zz := z * z
  let xy := x * y
  let xz := x * z
  let xw := x * w
  let yz := y * z
  let yw := y * w
  let zw := z * w
  { m00 := ww + xx - yy - zz, m10 := 2 * (xy - zw), m20 := 2 * (xz + yw),
    m01 := 2 * (xy + zw), m11 := ww - xx + yy - zz, m21 := 2 * (yz - xw),
    m02 := 2 * (xz - yw), m12 := 2 * (yz + xw), m22 := ww - xx - yy + zz }

/-- `camera.rs::rotate_quartanion`: quaternion `(sin(t/2)·n, cos(t/2))`. -/
noncomputable def rotate_quartanion (t : ℝ) (n : V3 ℝ) : V4 :=
  ⟨Real.sin (t / 2) * n.x, Real.sin (t / 2) * n.y, Real.sin (t / 2) * n.z,
   Real.cos (t / 2)⟩

/-- `camera.rs::mult_quartanion` (the `Matrix4 * b` product written out). -/
noncomputable def mult_quartanion (a b : V4) : V4 :=
  ⟨a.w * b.x + a.z * b.y - a.y * b.z - a.x * b.w,
   -(a.z * b.x) + a.w * b.y + a.x * b.z - a.y * b.w,
   a.y * b.x - a.x * b.y + a.w * b.z - a.z * b.w,
   a.x * b.x + a.y * b.y + a.z * b.z + a.w * b.w⟩

/-- `cgmath::PerspectiveFov<f32>` (only the fields the core reads). -/
structure PerspectiveFov where
  fovy : ℝ
  aspect : ℝ
  near : ℝ
  far : ℝ

/-- `PerspectiveFovExt::resize` from `camera.rs`: `aspect = width / height`. -/
noncomputable def PerspectiveFov.resize (p : PerspectiveFov) (width height : ℕ) :
    PerspectiveFov :=
  { p with aspect := (width : ℝ) / (height : ℝ) }

/-- `camera.rs::Camera`. -/
structure Camera where
  eye : V3 ℝ
  target : V3 ℝ
  up : V3 ℝ
  projection : PerspectiveFov

/-- `camera.rs::CameraController` (the window size is `(width, height)`). -/
structure CameraController where
  speed : ℝ
  is_up_pressed : Bool
  is_down_pressed : Bool
  is_forward_pressed : Bool
  is_backward_pressed : Bool
  is_move_left_pressed : Bool
  is_move_right_pressed : Bool
  is_move_up_pressed : Bool
  is_move_down_pressed : Bool
  is_left_pressed : Bool
  is_right_pressed : Bool
  is_middle_pressed : Bool
  is_wheel_scrolled : Bool
  is_shift_pressed : Bool
  is_camera_front_pressed : Bool
  is_camera_right_pressed : Bool
  is_camera_top_pressed : Bool
  scroll : ℝ
  cursor_position_before : ℝ × ℝ
  cursor_position_current : ℝ × ℝ
  size : ℕ × ℕ

/-- The `is_right_pressed`/`is_left_pressed` orbit branch of `update_camera`
(rotation about the world-up axis `(0,1,0)` by `angle`). -/
noncomputable def yaw_orbit (angle : ℝ) (camera : Camera) : Camera :=
  let forward := camera.target - camera.eye
  let rotate := quartanion_matrix (rotate_quartanion angle (V3.mk 0 1 0))
  { camera with
    eye := camera.target - rotate * forward,
    up := (rotate * camera.up).normalize }

/-- The `is_up_pressed`/`is_down_pressed` orbit branch of `update_camera`
(rotation about the camera's right vector by `angle`). -/
noncomputable def pitch_orbit (angle : ℝ) (camera : Camera) : Camera :=
  let forward := camera.target - camera.eye
  let right := (V3.normalize forward).cross camera.up
  let v := rotate_quartanion angle right
  let rotate := quartanion_matrix v
  { camera with
    eye := camera.target - rotate * forward,
    up := (rotate * camera.up).normalize }

/-- The `is_middle_pressed && !is_shift_pressed` drag-orbit branch of
`update_camera` (combined pitch/yaw from the cursor delta). -/
noncomputable def drag_orbit (cursor_diff : ℝ × ℝ) (camera : Camera) : Camera :=
  let forward := camera.target - camera.eye
  let right := (V3.normalize forward).cross camera.up
  let a := rotate_quartanion (-(0.003) * cursor_diff.2) right
  let b := rotate_quartanion (0.003 * cursor_diff.1) (V3.mk 0 1 0)
  let v := mult_quartanion a b
  let rotate := quartanion_matrix v
  { camera with
    eye := camera.target - rotate * forward,
    up := (rotate * camera.up).normalize }

/-- The `is_middle_pressed && is_shift_pressed` pan branch of
`update_camera`.  `forward` is the vector computed at function entry. -/
noncomputable def pan_move (forward : V3 ℝ) (cursor_diff : ℝ × ℝ) (size : ℕ × ℕ)
    (camera : Camera) : Camera :=
  let right := (V3.normalize forward).cross camera.up
  let mag := forward.magnitude
  let eye1 := camera.eye +
    (-right) * (2 : ℝ) * mag * cursor_diff.1 / (size.1 : ℝ) * Real.tan camera.projection.fovy
  let eye2 := eye1 +
    camera.up * (2 : ℝ) * mag * cursor_diff.2 / (size.2 : ℝ) * Real.tan camera.projection.fovy
  let target1 := camera.target +
    (-right) * (2 : ℝ) * mag * cursor_diff.1 / (size.1 : ℝ) * Real.tan camera.projection.fovy
  let target2 := target1 +
    camera.up * (2 : ℝ) * mag * cursor_diff.2 / (size.2 : ℝ) * Real.tan camera.projection.fovy
  { camera with eye := eye2, target := target2 }

/-- `CameraController::update_camera` from `camera.rs`, with the mutation of
`self` and `camera` made explicit (the result is the updated pair).  The
branch order and the distinction between the entry-time `forward` and the
per-branch recomputed `forward` follow the source. -/
noncomputable def CameraController.update_camera (self : CameraController)
    (camera : Camera) : CameraController × Camera :=
  let forward := camera.target - camera.eye
  let _forward_norm := forward.normalize
  let _forward_mag := forward.magnitude
  let s1 : CameraController × Camera :=
    if self.is_wheel_scrolled = true ∧ 0 ≤ self.scroll then
      ({ self with is_wheel_scrolled := false, scroll := 0 },
       { camera with eye := camera.eye + forward / (10 : ℝ) * self.scroll })
    else (self, camera)
  let s2 : CameraController × Camera :=
    if s1.1.is_wheel_scrolled = true ∧ s1.1.scroll < 0 then
      ({ s1.1 with is_wheel_scrolled := false, scroll := 0 },
       { s1.2 with eye := s1.2.eye + forward / (10 : ℝ) * s1.1.scroll })
    else s1
  let self1 := s2.1
  let c2 := s2.2
  let c3 := if self1.is_right_pressed = true then yaw_orbit (-0.05) c2 else c2
  let c4 := if self1.is_left_pressed = true then yaw_orbit 0.05 c3 else c3
  let c5 := if self1.is_up_pressed = true then pitch_orbit 0.05 c4 else c4
  let c6 := if self1.is_down_pressed = true then pitch_orbit (-0.05) c5 else c5
  let c7 :=
    if self1.is_camera_front_pressed = true then
      { c6 with
        eye := V3.mk 0 0 (-(V3.magnitude (c6.target - c6.eye))),
        target := V3.mk 0 0 0,
        up := V3.mk 0 1 0 }
    else c6
  let c8 :=
    if self1.is_camera_right_pressed = true then
      { c7 with
        eye := V3.mk (-(V3.magnitude (c7.target - c7.eye))) 0 0,
        target := V3.mk 0 0 0,
        up := V3.mk 0 2 0 }
    else c7
  let c9 :=
    if self1.is_camera_top_pressed = true then
      { c8 with
        eye := V3.mk 0 (V3.magnitude (c8.target - c8.eye)) 0,
        target := V3.mk 0 0 0,
        up := V3.mk 0 0 1 }
    else c8
  let c10 :=
    if self1.is_forward_pressed = true then
      { c9 with
        eye := c9.eye + forward.normalize * forward.magnitude * (0.003 : ℝ),
        target := c9.target + forward.normalize * forward.magnitude * (0.003 : ℝ) }
    else c9
  let c11 :=
    if self1.is_backward_pressed = true then
      { c10 with
        eye := c10.eye + (-forward.normalize) * forward.magnitude * (0.003 : ℝ),
        target := c10.target + (-forward.normalize) * forward.magnitude * (0.003 : ℝ) }
    else c10
  let c12 :=
    if self1.is_move_left_pressed = true then
      let right := forward.normalize.cross c11.up
      { c11 with
        eye := c11.eye + (-right) * forward.magnitude * (0.003 : ℝ),
        target := c11.target + (-right) * forward.magnitude * (0.003 : ℝ) }
    else c11
  let c13 :=
    if self1.is_move_right_pressed = true then
      let right := forward.normalize.cross c12.up
      { c12 with
        eye := c12.eye + right * forward.magnitude * (0.003 : ℝ),
        target := c12.target + right * forward.magnitude * (0.003 : ℝ) }
    else c12
  let c14 :=
    if self1.is_move_up_pressed = true then
      { c13 with
        eye := c13.eye + c13.up * forward.magnitude * (0.003 : ℝ),
        target := c13.target + c13.up * forward.magnitude * (0.003 : ℝ) }
    else c13
  let c15 :=
    if self1.is_move_down_pressed = true then
      { c14 with
        eye := c14.eye + (-c14.up) * forward.magnitude * (0.003 : ℝ),
        target := c14.target + (-c14.up) * forward.magnitude * (0.003 : ℝ) }
    else c14
  let c16 :=
    if self1.is_middle_pressed = true then
      let cursor_diff := (self1.cursor_position_current.1 - self1.cursor_position_before.1,
                          self1.cursor_position_current.2 - self1.cursor_position_before.2)
      if self1.is_shift_pressed = true then pan_move forward cursor_diff self1.size c15
      else drag_orbit cursor_diff c15
    else c15
  ({ self1 with cursor_position_before := self1.cursor_position_current }, c16)

/-- Arguments of the `.normalize()` calls made by `yaw_orbit`
(`camera.up = rotate * camera.up; camera.up = camera.up.normalize();`). -/
noncomputable def yaw_orbit_normalize_args (angle : ℝ) (camera : Camera) : List (V3 ℝ) :=
  let rotate := quartanion_matrix (rotate_quartanion angle (V3.mk 0 1 0))
  [rotate * camera.up]

/-- Arguments of the `.normalize()` calls made by `pitch_orbit`
(`forward.normalize()` for the right axis, then the up-vector renormalize). -/
noncomputable def pitch_orbit_normalize_args (angle : ℝ) (camera : Camera) : List (V3 ℝ) :=
  let forward := camera.target - camera.eye
  let right := (V3.normalize forward).cross camera.up
  let rotate := quartanion_matrix (rotate_quartanion angle right)
  [forward, rotate * camera.up]

/-- Arguments of the `.normalize()` calls made by `drag_orbit`. -/
noncomputable def drag_orbit_normalize_args (cursor_diff : ℝ × ℝ) (camera : Camera) :
    List (V3 ℝ) :=
  let forward := camera.target - camera.eye
  let right := (V3.normalize forward).cross camera.up
  let a := rotate_quartanion (-(0.003) * cursor_diff.2) right
  let b := rotate_quartanion (0.003 * cursor_diff.1) (V3.mk 0 1 0)
  let rotate := quartanion_matrix (mult_quartanion a b)
  [forward, rotate * camera.up]

/-- The arguments passed to `cgmath`'s `.normalize()` during one execution of
`CameraController::update_camera`, in execution order, alongside the same
camera threading as `update_camera` itself.  Line 260 of `camera.rs`
(`let forward_norm = forward.normalize();`) runs unconditionally, so the
entry-time `forward` always heads the list. -/
noncomputable def CameraController.update_camera_normalize_args
    (self : CameraController) (camera : Camera) : List (V3 ℝ) :=
  let forward := camera.target - camera.eye
  let s1 : CameraController × Camera :=
    if self.is_wheel_scrolled = true ∧ 0 ≤ self.scroll then
      ({ self with is_wheel_scrolled := false, scroll := 0 },
       { camera with eye := camera.eye + forward / (10 : ℝ) * self.scroll })
    else (self, camera)
  let s2 : CameraController × Camera :=
    if s1.1.is_wheel_scrolled = true ∧ s1.1.scroll < 0 then
      ({ s1.1 with is_wheel_scrolled := false, scroll := 0 },
       { s1.2 with eye := s1.2.eye + forward / (10 : ℝ) * s1.1.scroll })
    else s1
  let self1 := s2.1
  let c2 := s2.2
  let a3 := if self1.is_right_pressed = true then yaw_orbit_normalize_args (-0.05) c2 else []
  let c3 := if self1.is_right_pressed = true then yaw_orbit (-0.05) c2 else c2
  let a4 := if self1.is_left_pressed = true then yaw_orbit_normalize_args 0.05 c3 else []
  let c4 := if self1.is_left_pressed = true then yaw_orbit 0.05 c3 else c3
  let a5 := if self1.is_up_pressed = true then pitch_orbit_normalize_args 0.05 c4 else []
  let c5 := if self1.is_up_pressed = true then pitch_orbit 0.05 c4 else c4
  let a6 := if self1.is_down_pressed = true then pitch_orbit_normalize_args (-0.05) c5 else []
  let c6 := if self1.is_down_pressed = true then pitch_orbit (-0.05) c5 else c5
  let c7 :=
    if self1.is_camera_front_pressed = true then
      { c6 with
        eye := V3.mk 0 0 (-(V3.magnitude (c6.target - c6.eye))),
        target := V3.mk 0 0 0,
        up := V3.mk 0 1 0 }
    else c6
  let c8 :=
    if self1.is_camera_right_pressed = true then
      { c7 with
        eye := V3.mk (-(V3.magnitude (c7.target - c7.eye))) 0 0,
        target := V3.mk 0 0 0,
        up := V3.mk 0 2 0 }
    else c7
  let c9 :=
    if self1.is_camera_top_pressed = true then
      { c8 with
        eye := V3.mk 0 (V3.magnitude (c8.target - c8.eye)) 0,
        target := V3.mk 0 0 0,
        up := V3.mk 0 0 1 }
    else c8
  let a10 := if self1.is_forward_pressed = true then [forward, forward] else []
  let c10 :=
    if self1.is_forward_pressed = true then
      { c9 with
        eye := c9.eye + forward.normalize * forward.magnitude * (0.003 : ℝ),
        target := c9.target + forward.normalize * forward.magnitude * (0.003 : ℝ) }
    else c9
  let a11 := if self1.is_backward_pressed = true then [forward, forward] else []
  let c11 :=
    if self1.is_backward_pressed = true then
      { c10 with
        eye := c10.eye + (-forward.normalize) * forward.magnitude * (0.003 : ℝ),
        target := c10.target + (-forward.normalize) * forward.magnitude * (0.003 : ℝ) }
    else c10
  let a12 := if self1.is_move_left_pressed = true then [forward] else []
  let c12 :=
    if self1.is_move_left_pressed = true then
      let right := forward.normalize.cross c11.up
      { c11 with
        eye := c11.eye + (-right) * forward.magnitude * (0.003 : ℝ),
        target := c11.target + (-right) * forward.magnitude * (0.003 : ℝ) }
    else c11
  let a13 := if self1.is_move_right_pressed = true then [forward] else []
  let c13 :=
    if self1.is_move_right_pressed = true then
      let right := forward.normalize.cross c12.up
      { c12 with
        eye := c12.eye + right * forward.magnitude * (0.003 : ℝ),
        target := c12.target + right * forward.magnitude * (0.003 : ℝ) }
    else c12
  let c14 :=
    if self1.is_move_up_pressed = true then
      { c13 with
        eye := c13.eye + c13.up * forward.magnitude * (0.003 : ℝ),
        target := c13.target + c13.up * forward.magnitude * (0.003 : ℝ) }
    else c13
  let c15 :=
    if self1.is_move_down_pressed = true then
      { c14 with
        eye := c14.eye + (-c14.up) * forward.magnitude * (0.003 : ℝ),
        target := c14.target + (-c14.up) * forward.magnitude * (0.003 : ℝ) }
    else c14
  let a16 :=
    if self1.is_middle_pressed = true then
      let cursor_diff := (self1.cursor_position_current.1 - self1.cursor_position_before.1,
                          self1.cursor_position_current.2 - self1.cursor_position_before.2)
      if self1.is_shift_pressed = true then [forward]
      else drag_orbit_normalize_args cursor_diff c15
    else []
  [forward] ++ a3 ++ a4 ++ a5 ++ a6 ++ a10 ++ a11 ++ a12 ++ a13 ++ a16

/-- State of one shared keyed registry (`Arc<RwLock<HashMap<String, Arc<T>>>>`
from `scene.rs`), together with a counter of GPU allocations performed so far.
Each allocated object is stamped with the allocation number at which its
builder ran, so "reference-identical handle" is expressible as equality. -/
structure CacheState (α : Type) where
  entries : List (String × α)
  allocCount : ℕ

/-- Association-list lookup standing for `HashMap::get`. -/
def CacheState.find {α : Type} (s : CacheState α) (key : String) : Option α :=
  (s.entries.find? (fun e => e.1 = key)).map (fun e => e.2)

/-- `HashMap::entry(key).or_insert_with(builder).clone()` as used for the
`materials` and `shaders` caches in `model.rs::ObjModel::load`: if `key` is
present the existing shared handle is returned and the builder does not run;
otherwise the builder runs once (consuming one fresh allocation number), the
result is inserted and returned. -/
def CacheState.get_or_insert_with {α : Type} (s : CacheState α) (key : String)
    (builder : ℕ → α) : α × CacheState α :=
  match s.find key with
  | some v => (v, s)
  | none =>
    let v := builder s.allocCount
    (v, { entries := (key, v) :: s.entries, allocCount := s.allocCount + 1 })

/-- `wgpu::SurfaceConfiguration` (the fields `Scene::resize` reads). -/
structure SurfaceConfiguration where
  width : ℕ
  height : ℕ

/-- The wgpu texture formats appearing in the embedded code. -/
inductive TextureFormat where
  | Rgba8Unorm
  | Rgba8UnormSrgb
  | Depth32Float
deriving DecidableEq

/-- `wgpu::Extent3d`. -/
structure Extent3d where
  width : ℕ
  height : ℕ
  depth_or_array_layers : ℕ
deriving DecidableEq

/-- The observable shape of a created `wgpu` texture: its extent and format,
plus the pixel bytes uploaded to it (empty for render targets that upload
nothing at creation). -/
structure TextureDesc where
  size : Extent3d
  format : TextureFormat
  data : List ℕ
deriving DecidableEq

/-- `texture.rs::Texture::one_pixel`: a 1×1 texture holding exactly the given
RGBA bytes (`Rgba8Unorm` when `is_normal_map`, else `Rgba8UnormSrgb`). -/
def Texture.one_pixel (bytes : List ℕ) (is_normal_map : Bool) : TextureDesc :=
  { size := { width := 1, height := 1, depth_or_array_layers := 1 },
    format := if is_normal_map then .Rgba8Unorm else .Rgba8UnormSrgb,
    data := bytes }

/-- `texture.rs::Texture::create_depth_texture`: a `Depth32Float` texture with
the surface configuration's exact dimensions. -/
def Texture.create_depth_texture (config : SurfaceConfiguration) : TextureDesc :=
  { size := { width := config.width, height := config.height, depth_or_array_layers := 1 },
    format := .Depth32Float,
    data := [] }

/-- The slice of `renderer.rs::Renderer` that `Scene::resize` touches. -/
structure Renderer where
  depth_texture : TextureDesc

/-- The slice of `scene.rs::Scene` relevant to the resize lifecycle. -/
structure Scene where
  camera : Camera
  renderer : Renderer

/-- `scene.rs::Scene::resize`: update `camera.projection.aspect` via
`PerspectiveFovExt::resize` and rebuild the depth texture from the new
surface configuration. -/
noncomputable def Scene.resize (s : Scene) (config : SurfaceConfiguration) : Scene :=
  { s with
    camera := { s.camera with
      projection := s.camera.projection.resize config.width config.height },
    renderer := { s.renderer with
      depth_texture := Texture.create_depth_texture config } }

/-- Rust's saturating `as u8` cast applied to a nonnegative-or-not rational:
values below `0` clamp to `0`, values above `255` clamp to `255`, and the
fractional part is truncated (for nonnegative inputs truncation is `floor`). -/
def rustCastU8 (x : ℚ) : ℕ :=
  if x ≤ 0 then 0 else min 255 ⌊x⌋.toNat

/-- The fields of a `tobj::Material` that the material-loading loop of
`model.rs::ObjModel::load` reads. -/
structure ObjMaterial where
  name : String
  diffuse_texture : String
  normal_texture : String
  specular_texture : String
  diffuse : ℚ × ℚ × ℚ
  specular : ℚ × ℚ × ℚ

/-- The diffuse-texture selection of `model.rs::ObjModel::load` (lines
112-131): a nonempty path is loaded from disk (modelled by the external
`loadFile` collaborator, which may fail); an empty path falls back to a 1×1
texture whose RGB bytes are the scalar diffuse color quantized by
`(i * 255.) as u8`, with alpha `0xff` pushed at the end. -/
def load_diffuse_texture (loadFile : String → Except String TextureDesc)
    (mat : ObjMaterial) : Except String TextureDesc :=
  if mat.diffuse_texture ≠ "" then
    loadFile mat.diffuse_texture
  else
    let diffuse_color :=
      ([mat.diffuse.1, mat.diffuse.2.1, mat.diffuse.2.2].map
        (fun i => rustCastU8 (i * 255))) ++ [0xff]
    Except.ok (Texture.one_pixel diffuse_color true)

/-- The normal-texture selection of `model.rs::ObjModel::load` (lines
133-145): an empty path falls back to the fixed 1×1 texture with bytes
`[0x80, 0x80, 0xff, 0]`. -/
def load_normal_texture (loadFile : String → Except String TextureDesc)
    (mat : ObjMaterial) : Except String TextureDesc :=
  if mat.normal_texture ≠ "" then
    loadFile mat.normal_texture
  else
    Except.ok (Texture.one_pixel [0x80, 0x80, 0xff, 0] true)

/-- `wgpu::TextureViewDescriptor` (the layer-selection fields that
`Lights::new` sets when assigning each light its shadow view). -/
structure TextureViewDesc where
  base_array_layer : ℕ
  array_layer_count : Option ℕ
deriving DecidableEq

/-- `light.rs::Light` (scalar payload plus the assigned shadow view). -/
structure Light where
  position : V3 ℚ
  color : V3 ℚ
  fov : ℚ
  depth_start : ℚ
  depth_end : ℚ
  shadow_view : Option TextureViewDesc

/-- `light.rs::LightObject` (the GPU buffer/bind group carry no state the
claims observe beyond the wrapped light). -/
structure LightObject where
  light : Light

/-- A created `wgpu` buffer, observed through its byte size. -/
structure BufferDesc where
  size : ℕ
deriving DecidableEq

/-- `Lights::SHADOW_FORMAT`. -/
def Lights.SHADOW_FORMAT : TextureFormat := .Depth32Float

/-- `Lights::SHADOW_SIZE`: `Extent3d { width: 1, height: 1,
depth_or_array_layers: 1 }`. -/
def Lights.SHADOW_SIZE : Extent3d :=
  { width := 1, height := 1, depth_or_array_layers := 1 }

/-- The `MAX_LIGHTS` constant local to `Lights::new`. -/
def MAX_LIGHTS : ℕ := 2

/-- `mem::size_of::<LightRaw>()`: a `repr(C)` record of a `[[f32; 4]; 4]`
matrix and two `[f32; 4]` vectors, 4 bytes per `f32`, no padding. -/
def LightRaw.size_of : ℕ := (4 * 4 + 4 + 4) * 4

/-- `light.rs::Lights` as constructed by `Lights::new`. -/
structure Lights where
  lights : List LightObject
  shadow_texture : TextureDesc
  light_storage_buf : BufferDesc

/-- `light.rs::Lights::new`: creates the shadow texture with the fixed
`SHADOW_SIZE` extent, gives light `i` a view with `base_array_layer = i` and
`array_layer_count = 1`, and creates the storage buffer of
`MAX_LIGHTS * mem::size_of::<LightRaw>()` bytes. -/
def Lights.new (lights : List LightObject) : Lights :=
  let shadow_texture : TextureDesc :=
    { size := Lights.SHADOW_SIZE, format := Lights.SHADOW_FORMAT, data := [] }
  let lights := lights.mapIdx (fun i lo =>
    { lo with light := { lo.light with
        shadow_view := some { base_array_layer := i, array_layer_count := some 1 } } })
  { lights := lights,
    shadow_texture := shadow_texture,
    light_storage_buf := { size := MAX_LIGHTS * LightRaw.size_of } }

/-- `model.rs::ModelVertex` (and its twin in `collection.rs`), with `f32`
components idealized as rationals. -/
structure ModelVertex where
  position : V3 ℚ
  tex_coords : ℚ × ℚ
  normal : V3 ℚ
  tangent : V3 ℚ
  bitangent : V3 ℚ
deriving DecidableEq

instance : Inhabited ModelVertex :=
  ⟨{ position := ⟨0, 0, 0⟩, tex_coords := (0, 0), normal := ⟨0, 0, 0⟩,
     tangent := ⟨0, 0, 0⟩, bitangent := ⟨0, 0, 0⟩ }⟩

/-- `indices.chunks(3)` restricted to the complete 3-chunks.  (On an index
buffer whose length is not a multiple of 3 the Rust loop body would panic at
`c[1]`/`c[2]`; triangle index buffers are a multiple of 3.) -/
def chunk3 : List ℕ → List (ℕ × ℕ × ℕ)
  | a :: b :: c :: rest => (a, b, c) :: chunk3 rest
  | _ => []

/-- The tangent/bitangent that the loop body of `ObjModel::load` computes for
one triangle `(c[0], c[1], c[2])` from the current vertex list (it reads only
positions and texture coordinates). -/
def tri_tangent (vertices : List ModelVertex) (t : ℕ × ℕ × ℕ) : V3 ℚ × V3 ℚ :=
  let v0 := vertices.getD t.1 default
  let v1 := vertices.getD t.2.1 default
  let v2 := vertices.getD t.2.2 default
  let dp1 := v1.position - v0.position
  let dp2 := v2.position - v0.position
  let dw1 := (v1.tex_coords.1 - v0.tex_coords.1, v1.tex_coords.2 - v0.tex_coords.2)
  let dw2 := (v2.tex_coords.1 - v0.tex_coords.1, v2.tex_coords.2 - v0.tex_coords.2)
  let r := 1 / (dw1.1 * dw2.2 - dw1.2 * dw2.1)
  let tangent := (dp1 * dw2.2 - dp2 * dw1.2) * r
  let bitangent := (dp2 * dw1.1 - dp1 * dw2.1) * r
  (tangent, bitangent)

/-- One iteration of the triangle loop: compute the triangle's tangent and
bitangent and write them into all three referenced vertices, in the order of
the source's six assignments. -/
def write_tri (vertices : List ModelVertex) (t : ℕ × ℕ × ℕ) : List ModelVertex :=
  let tb := tri_tangent vertices t
  let vs := vertices.modify (fun v => { v with tangent := tb.1 }) t.1
  let vs := vs.modify (fun v => { v with tangent := tb.1 }) t.2.1
  let vs := vs.modify (fun v => { v with tangent := tb.1 }) t.2.2
  let vs := vs.modify (fun v => { v with bitangent := tb.2 }) t.1
  let vs := vs.modify (fun v => { v with bitangent := tb.2 }) t.2.1
  let vs := vs.modify (fun v => { v with bitangent := tb.2 }) t.2.2
  vs

/-- The full `for c in indices.chunks(3)` loop of `ObjModel::load`. -/
def tangent_pass (vertices : List ModelVertex) : List (ℕ × ℕ × ℕ) → List ModelVertex
  | [] => vertices
  | t :: rest => tangent_pass (write_tri vertices t) rest

/-- Whether triangle `t` references vertex index `v`. -/
def tri_references (v : ℕ) (t : ℕ × ℕ × ℕ) : Prop :=
  v = t.1 ∨ v = t.2.1 ∨ v = t.2.2

instance (v : ℕ) (t : ℕ × ℕ × ℕ) : Decidable (tri_references v t) := by
  unfold tri_references
  infer_instance

/-- The last triangle of `tris` (in index-buffer order) that references
vertex `v`, if any. -/
def last_tri_referencing (tris : List (ℕ × ℕ × ℕ)) (v : ℕ) : Option (ℕ × ℕ × ℕ) :=
  match tris with
  | [] => none
  | t :: rest =>
    match last_tri_referencing rest v with
    | some u => some u
    | none => if tri_references v t then some t else none

/-- `camera.rs::Camera::new` (with `cgmath::Deg(45.0).into()` spelled as the
degree-to-radian conversion). -/
noncomputable def Camera.new (size : ℕ × ℕ) : Camera :=
  { eye := V3.mk 3 4 (-6),
    target := V3.mk 0 0 0,
    up := V3.mk 0 1 0,
    projection :=
      { fovy := 45 * (Real.pi / 180),
        aspect := (size.1 : ℝ) / (size.2 : ℝ),
        near := 0.1,
        far := 100000 } }

/-- `camera.rs::CameraController::new`. -/
def CameraController.new (speed : ℝ) (size : ℕ × ℕ) : CameraController :=
  { speed := speed,
    is_up_pressed := false,
    is_down_pressed := false,
    is_forward_pressed := false,
    is_backward_pressed := false,
    is_move_left_pressed := false,
    is_move_right_pressed := false,
    is_move_up_pressed := false,
    is_move_down_pressed := false,
    is_left_pressed := false,
    is_right_pressed := false,
    is_middle_pressed := false,
    is_wheel_scrolled := false,
    is_shift_pressed := false,
    is_camera_front_pressed := false,
    is_camera_right_pressed := false,
    is_camera_top_pressed := false,
    scroll := 0,
    cursor_position_before := (0, 0),
    cursor_position_current := (0, 0),
    size := size }

/-- Controller holding only the `Numpad4` yaw-orbit key (`is_left_pressed`,
fixed angle `0.05`). -/
def ctl_yaw_left : CameraController :=
  { CameraController.new 0.2 (800, 600) with is_left_pressed := true }

/-- Controller holding only the `Numpad3` right-view snap key. -/
def ctl_snap_right : CameraController :=
  { CameraController.new 0.2 (800, 600) with is_camera_right_pressed := true }

/-- Controller holding only the `W` (forward translation) key. -/
def ctl_forward : CameraController :=
  { CameraController.new 0.2 (800, 600) with is_forward_pressed := true }

/-- Controller with one pending wheel-scroll of `+1.0`. -/
def ctl_scroll_one : CameraController :=
  { CameraController.new 0.2 (800, 600) with is_wheel_scrolled := true, scroll := 1 }

/-- A camera looking at the origin from `(0, 0, -5)`. -/
noncomputable def cam_front_of_origin : Camera :=
  { Camera.new (800, 600) with eye := V3.mk 0 0 (-5) }

/-- A degenerate camera with `eye = target` (zero-length forward vector). -/
noncomputable def cam_degenerate : Camera :=
  { Camera.new (800, 600) with eye := V3.mk 0 0 0, target := V3.mk 0 0 0 }

/-- Five successive `update_camera` calls holding the yaw-orbit key, starting
from the initial camera of `Camera::new` (`eye = (3,4,-6)`, `target = 0`). -/
noncomputable def yaw_steps : ℕ → CameraController × Camera
  | 0 => (ctl_yaw_left, Camera.new (800, 600))
  | n + 1 => (yaw_steps n).1.update_camera (yaw_steps n).2

/-- Proof device: rotation of a vector about the `y` axis by angle `t`
(the action of the code's yaw-orbit matrix in closed form). -/
noncomputable def rotY (t : ℝ) (v : V3 ℝ) : V3 ℝ :=
  ⟨Real.cos t * v.x - Real.sin t * v.z, v.y, Real.sin t * v.x + Real.cos t * v.z⟩

/-- The light constructed in `scene.rs::Scene::new` (fov in degrees). -/
def example_light : Light :=
  { position := ⟨200, 200, 2⟩, color := ⟨1, 1, 1⟩, fov := 45,
    depth_start := 1, depth_end := 20, shadow_view := none }

/-- A `LightObject` wrapping `example_light`. -/
def example_light_object : LightObject := ⟨example_light⟩

/-- Four vertices of a quad (two triangles sharing the edge `1-2`), with
tangents and bitangents initialized to zero as in `ObjModel::load`. -/
def example_vertices : List ModelVertex :=
  [{ position := ⟨0, 0, 0⟩, tex_coords := (0, 0), normal := ⟨0, 0, 1⟩,
     tangent := ⟨0, 0, 0⟩, bitangent := ⟨0, 0, 0⟩ },
   { position := ⟨1, 0, 0⟩, tex_coords := (1, 0), normal := ⟨0, 0, 1⟩,
     tangent := ⟨0, 0, 0⟩, bitangent := ⟨0, 0, 0⟩ },
   { position := ⟨0, 1, 0⟩, tex_coords := (0, 1), normal := ⟨0, 0, 1⟩,
     tangent := ⟨0, 0, 0⟩, bitangent := ⟨0, 0, 0⟩ },
   { position := ⟨1, 1, 1⟩, tex_coords := (1, 1), normal := ⟨0, 0, 1⟩,
     tangent := ⟨0, 0, 0⟩, bitangent := ⟨0, 0, 0⟩ }]

/-- An OBJ material with empty texture paths and diffuse color
`(0.5, 0.25, 1.0)`. -/
def example_material : ObjMaterial :=
  { name := "m", diffuse_texture := "", normal_texture := "", specular_texture := "",
    diffuse := (1/2, 1/4, 1), specular := (0, 0, 0) }

@[simp] lemma V3.add_mk {α : Type} [Add α] (a b : V3 α) :
    a + b = V3.mk (a.x + b.x) (a.y + b.y) (a.z + b.z) := rfl

@[simp] lemma V3.sub_mk {α : Type} [Sub α] (a b : V3 α) :
    a - b = V3.mk (a.x - b.x) (a.y - b.y) (a.z - b.z) := rfl

@[simp] lemma V3.neg_mk {α : Type} [Neg α] (a : V3 α) :
    -a = V3.mk (-a.x) (-a.y) (-a.z) := rfl

@[simp] lemma V3.hmul_mk {α : Type} [Mul α] (v : V3 α) (s : α) :
    v * s = V3.mk (v.x * s) (v.y * s) (v.z * s) := rfl

@[simp] lemma V3.hdiv_mk {α : Type} [Div α] (v : V3 α) (s : α) :
    v / s = V3.mk (v.x / s) (v.y / s) (v.z / s) := rfl

@[simp] lemma Mat3.mulVec_mk (m : Mat3) (v : V3 ℝ) :
    m * v = V3.mk (m.m00 * v.x + m.m01 * v.y + m.m02 * v.z)
                  (m.m10 * v.x + m.m11 * v.y + m.m12 * v.z)
                  (m.m20 * v.x + m.m21 * v.y + m.m22 * v.z) := rfl

lemma after_get_or_insert_find {α : Type} (s : CacheState α) (key : String) (b : ℕ → α) :
    (s.get_or_insert_with key b).2.find key = some (s.get_or_insert_with key b).1 := by
  unfold CacheState.get_or_insert_with
  cases h : s.find key with
  | some v => simp [h]
  | none => simp [CacheState.find, List.find?]

/-- C1: on the shared keyed caches, `entry(key).or_insert_with(builder)` with
a present key returns the stored shared handle unchanged and never runs the
builder (the allocation counter is untouched); with an absent key it runs the
builder exactly once, inserts and returns the result; consequently a second
`get_or_insert` with the same key returns the handle of the first call with
the cache state (and so the allocation count) unchanged — no second GPU
object is allocated and the second builder never runs. -/
theorem cache_get_or_insert_identity {α : Type} (s : CacheState α) (key : String)
    (b1 b2 : ℕ → α) :
    (∀ v, s.find key = some v → s.get_or_insert_with key b1 = (v, s)) ∧
    (s.find key = none →
      s.get_or_insert_with key b1 =
        (b1 s.allocCount,
         { entries := (key, b1 s.allocCount) :: s.entries,
           allocCount := s.allocCount + 1 })) ∧
    ((s.get_or_insert_with key b1).2.get_or_insert_with key b2).1 =
      (s.get_or_insert_with key b1).1 ∧
    ((s.get_or_insert_with key b1).2.get_or_insert_with key b2).2 =
      (s.get_or_insert_with key b1).2 := by
  have hfind := after_get_or_insert_find s key b1
  have hsecond : ((s.get_or_insert_with key b1).2).get_or_insert_with key b2 =
      ((s.get_or_insert_with key b1).1, (s.get_or_insert_with key b1).2) := by
    rcases hr : s.get_or_insert_with key b1 with ⟨h1, s1⟩
    rw [hr] at hfind
    simp only at hfind ⊢
    simp [CacheState.get_or_insert_with, hfind]
  refine ⟨fun v hv => ?_, fun hn => ?_, ?_, ?_⟩
  · simp [CacheState.get_or_insert_with, hv]
  · simp [CacheState.get_or_insert_with, hn]
  · rw [hsecond]
  · rw [hsecond]

/-- Witness for C1 at concrete caches: a hit on `"k"` returns the stored
handle `7` without touching the state, and a miss on the empty cache runs the
builder on allocation number `0` and inserts the result. -/
theorem cache_get_or_insert_identity_witness :
    CacheState.get_or_insert_with ⟨[("k", 7)], 1⟩ "k" (fun n => n) = (7, ⟨[("k", 7)], 1⟩) ∧
    CacheState.get_or_insert_with (⟨[], 0⟩ : CacheState ℕ) "k" (fun n => n + 100) =
      (100, { entries := [("k", 100)], allocCount := 1 }) := by
  constructor
  · exact (cache_get_or_insert_identity ⟨[("k", 7)], 1⟩ "k" (fun n => n) (fun n => n)).1 7 rfl
  · simpa using
      (cache_get_or_insert_identity (⟨[], 0⟩ : CacheState ℕ) "k"
        (fun n => n + 100) (fun n => n + 100)).2.1 rfl

/-- C5: `Scene::resize` sets the camera projection's aspect ratio to exactly
`width / height` of the new surface configuration and replaces the depth
texture with one whose dimensions equal the new surface dimensions exactly;
in particular going from 800×600 to 1920×1080 moves the aspect from
`1.3333` to `1.7778` within `1e-4`. -/
theorem scene_resize_aspect_and_depth (s : Scene) (config : SurfaceConfiguration) :
    (s.resize config).camera.projection.aspect = (config.width : ℝ) / (config.height : ℝ) ∧
    (s.resize config).renderer.depth_texture.size.width = config.width ∧
    (s.resize config).renderer.depth_texture.size.height = config.height ∧
    |(s.resize { width := 800, height := 600 }).camera.projection.aspect - 1.3333| < 1e-4 ∧
    |(s.resize { width := 1920, height := 1080 }).camera.projection.aspect - 1.7778| < 1e-4 := by
  refine ⟨rfl, rfl, rfl, ?_, ?_⟩ <;>
  · simp only [Scene.resize, PerspectiveFov.resize]
    rw [abs_lt]
    norm_num

/-- C6: a material with an empty diffuse-texture path loads successfully,
producing a 1×1 texture whose RGB bytes are the scalar diffuse color
quantized by Rust's `(c * 255.) as u8` cast with alpha `0xff`; an empty
normal-texture path yields the fixed 1×1 texture whose RGB bytes are
`[0x80, 0x80, 0xff]`. -/
theorem material_fallback_textures (loadFile : String → Except String TextureDesc)
    (mat : ObjMaterial) :
    (mat.diffuse_texture = "" →
      load_diffuse_texture loadFile mat =
        Except.ok (Texture.one_pixel
          [rustCastU8 (mat.diffuse.1 * 255), rustCastU8 (mat.diffuse.2.1 * 255),
           rustCastU8 (mat.diffuse.2.2 * 255), 0xff] true)) ∧
    (mat.normal_texture = "" →
      load_normal_texture loadFile mat =
        Except.ok (Texture.one_pixel [0x80, 0x80, 0xff, 0] true) ∧
      (Texture.one_pixel [0x80, 0x80, 0xff, 0] true).data.take 3 = [0x80, 0x80, 0xff]) := by
  constructor
  · intro h
    simp [load_diffuse_texture, h]
  · intro h
    exact ⟨by simp [load_normal_texture, h], rfl⟩

/-- Witness for C6: the material with diffuse color `(0.5, 0.25, 1.0)` and
empty paths yields the quantized bytes `[127, 63, 255, 255]` and the neutral
normal bytes `[128, 128, 255, 0]`. -/
theorem material_fallback_textures_witness :
    load_diffuse_texture (fun _ => Except.error "io") example_material =
      Except.ok { size := ⟨1, 1, 1⟩, format := .Rgba8Unorm, data := [127, 63, 255, 255] } ∧
    load_normal_texture (fun _ => Except.error "io") example_material =
      Except.ok { size := ⟨1, 1, 1⟩, format := .Rgba8Unorm, data := [128, 128, 255, 0] } := by
  have h := material_fallback_textures (fun _ => Except.error "io") example_material
  constructor
  · rw [h.1 rfl]
    simp only [Except.ok.injEq, Texture.one_pixel, example_material, rustCastU8]
    norm_num [min_def]
    exact ⟨rfl, rfl⟩
  · rw [(h.2 rfl).1]
    simp only [Except.ok.injEq, Texture.one_pixel]
    norm_num

/-- C7 counterexample: constructing `Lights` with `MAX_LIGHTS = 2` lights
produces a shadow texture with a single array layer (`SHADOW_SIZE` is fixed
at 1×1×1), not one layer per light. -/
theorem lights_shadow_single_layer :
    (Lights.new [example_light_object, example_light_object]).lights.length = MAX_LIGHTS ∧
    (Lights.new [example_light_object, example_light_object]).shadow_texture.size.depth_or_array_layers = 1 ∧
    (Lights.new [example_light_object, example_light_object]).shadow_texture.size.depth_or_array_layers ≠
      (Lights.new [example_light_object, example_light_object]).lights.length := by
  refine ⟨rfl, rfl, ?_⟩
  simp [Lights.new, Lights.SHADOW_SIZE]

/-- C7 (amended): `Lights::new` creates the shadow texture with the fixed
extent 1×1×1 (a single array layer regardless of the light count), assigns
light `i` a view with `base_array_layer = i` and one layer, and creates a
storage buffer of exactly `MAX_LIGHTS * size_of::<LightRaw>() = 2 * 96 = 192`
bytes. -/
theorem lights_new_shape (lights : List LightObject) :
    (Lights.new lights).shadow_texture.size = Extent3d.mk 1 1 1 ∧
    (Lights.new lights).shadow_texture.format = TextureFormat.Depth32Float ∧
    (Lights.new lights).lights = lights.mapIdx (fun i lo =>
      { lo with light := { lo.light with
          shadow_view := some { base_array_layer := i, array_layer_count := some 1 } } }) ∧
    (Lights.new lights).light_storage_buf.size = MAX_LIGHTS * LightRaw.size_of ∧
    MAX_LIGHTS * LightRaw.size_of = 192 :=
  ⟨rfl, rfl, rfl, rfl, rfl⟩

lemma write_tri_length (vs : List ModelVertex) (t : ℕ × ℕ × ℕ) :
    (write_tri vs t).length = vs.length := by
  simp [write_tri]

lemma write_tri_position (vs : List ModelVertex) (t : ℕ × ℕ × ℕ) (v : ℕ) :
    ((write_tri vs t).getD v default).position = (vs.getD v default).position := by
  simp only [write_tri, List.getD_eq_getElem?_getD, List.getElem?_modify]
  cases hh : vs[v]? with
  | none => rfl
  | some a =>
    simp only [Option.map_eq_map, Option.map_some', Option.getD_some]
    split_ifs <;> rfl

lemma write_tri_tex_coords (vs : List ModelVertex) (t : ℕ × ℕ × ℕ) (v : ℕ) :
    ((write_tri vs t).getD v default).tex_coords = (vs.getD v default).tex_coords := by
  simp only [write_tri, List.getD_eq_getElem?_getD, List.getElem?_modify]
  cases hh : vs[v]? with
  | none => rfl
  | some a =>
    simp only [Option.map_eq_map, Option.map_some', Option.getD_some]
    split_ifs <;> rfl

lemma tri_tangent_write_tri (vs : List ModelVertex) (t' t : ℕ × ℕ × ℕ) :
    tri_tangent (write_tri vs t') t = tri_tangent vs t := by
  simp only [tri_tangent]
  rw [write_tri_position vs t' t.1, write_tri_position vs t' t.2.1,
      write_tri_position vs t' t.2.2, write_tri_tex_coords vs t' t.1,
      write_tri_tex_coords vs t' t.2.1, write_tri_tex_coords vs t' t.2.2]

lemma tri_references_iff (v : ℕ) (t : ℕ × ℕ × ℕ) :
    tri_references v t ↔ (t.1 = v ∨ t.2.1 = v ∨ t.2.2 = v) := by
  unfold tri_references
  constructor <;> rintro (h | h | h) <;> simp [h]

lemma write_tri_getD (vs : List ModelVertex) (t : ℕ × ℕ × ℕ) (v : ℕ)
    (h : v < vs.length) :
    (write_tri vs t).getD v default =
      if tri_references v t then
        { vs.getD v default with
          tangent := (tri_tangent vs t).1, bitangent := (tri_tangent vs t).2 }
      else vs.getD v default := by
  obtain ⟨a, ha⟩ : ∃ a, vs[v]? = some a := ⟨vs[v], List.getElem?_eq_getElem h⟩
  rcases t with ⟨i0, i1, i2⟩
  simp only [tri_references_iff]
  simp only [write_tri, List.getD_eq_getElem?_getD, List.getElem?_modify, ha,
    Option.map_eq_map, Option.map_some', Option.getD_some]
  by_cases h1 : i0 = v <;> by_cases h2 : i1 = v <;> by_cases h3 : i2 = v <;>
    simp [h1, h2, h3]

lemma tangent_pass_last_tri :
    ∀ (tris : List (ℕ × ℕ × ℕ)) (vs : List ModelVertex) (v : ℕ), v < vs.length →
      ((tangent_pass vs tris).getD v default).tangent =
        (match last_tri_referencing tris v with
         | some t => (tri_tangent vs t).1
         | none => (vs.getD v default).tangent) ∧
      ((tangent_pass vs tris).getD v default).bitangent =
        (match last_tri_referencing tris v with
         | some t => (tri_tangent vs t).2
         | none => (vs.getD v default).bitangent)
  | [], vs, v, hv => by
    simp [tangent_pass, last_tri_referencing]
  | t :: rest, vs, v, hv => by
    have hlen : v < (write_tri vs t).length := by
      rw [write_tri_length]; exact hv
    have IH := tangent_pass_last_tri rest (write_tri vs t) v hlen
    simp only [tangent_pass, last_tri_referencing]
    cases hlast : last_tri_referencing rest v with
    | some u =>
      simp only [hlast] at IH
      rw [IH.1, IH.2, tri_tangent_write_tri]
      exact ⟨rfl, rfl⟩
    | none =>
      simp only [hlast] at IH
      rw [IH.1, IH.2, write_tri_getD vs t v hv]
      by_cases href : tri_references v t <;> simp [href]

/-- C9: in the triangle loop of `ObjModel::load`, the per-triangle tangent
and bitangent are written into all three vertices of each triangle, so after
the loop a vertex referenced by at least one triangle holds exactly the
tangent and bitangent of the last triangle (in index-buffer order) that
references it — no averaging. -/
theorem tangent_last_triangle_wins (vertices : List ModelVertex) (indices : List ℕ)
    (v : ℕ) (hv : v < vertices.length) (t : ℕ × ℕ × ℕ)
    (hlast : last_tri_referencing (chunk3 indices) v = some t) :
    ((tangent_pass vertices (chunk3 indices)).getD v default).tangent =
      (tri_tangent vertices t).1 ∧
    ((tangent_pass vertices (chunk3 indices)).getD v default).bitangent =
      (tri_tangent vertices t).2 := by
  have h := tangent_pass_last_tri (chunk3 indices) vertices v hv
  simp only [hlast] at h
  exact h

/-- Witness for C9: on a quad `[0,1,2, 1,2,3]`, the shared vertex `1` ends
the loop with the tangent and bitangent of the second (last) triangle
`(1,2,3)`. -/
theorem tangent_last_triangle_wins_witness :
    (1 < example_vertices.length ∧
     last_tri_referencing (chunk3 [0, 1, 2, 1, 2, 3]) 1 = some (1, 2, 3)) ∧
    ((tangent_pass example_vertices (chunk3 [0, 1, 2, 1, 2, 3])).getD 1 default).tangent =
      (tri_tangent example_vertices (1, 2, 3)).1 ∧
    ((tangent_pass example_vertices (chunk3 [0, 1, 2, 1, 2, 3])).getD 1 default).bitangent =
      (tri_tangent example_vertices (1, 2, 3)).2 :=
  ⟨⟨by decide, by decide⟩,
   tangent_last_triangle_wins example_vertices [0, 1, 2, 1, 2, 3] 1 (by decide)
     (1, 2, 3) (by decide)⟩

lemma update_camera_inactive (self : CameraController) (camera : Camera)
    (h1 : self.is_up_pressed = false) (h2 : self.is_down_pressed = false)
    (h3 : self.is_forward_pressed = false) (h4 : self.is_backward_pressed = false)
    (h5 : self.is_move_left_pressed = false) (h6 : self.is_move_right_pressed = false)
    (h7 : self.is_move_up_pressed = false) (h8 : self.is_move_down_pressed = false)
    (h9 : self.is_left_pressed = false) (h10 : self.is_right_pressed = false)
    (h11 : self.is_middle_pressed = false) (h12 : self.is_wheel_scrolled = false)
    (h13 : self.is_camera_front_pressed = false) (h14 : self.is_camera_right_pressed = false)
    (h15 : self.is_camera_top_pressed = false) :
    self.update_camera camera =
      ({ self with cursor_position_before := self.cursor_position_current }, camera) := by
  simp [CameraController.update_camera, h1, h2, h3, h4, h5, h6, h7, h8, h9, h10, h11,
    h12, h13, h14, h15]

/-- C10: when no key or mouse-button flag is set and no wheel scroll is
pending, `update_camera` leaves the camera completely unchanged and mutates
only the controller's `cursor_position_before`, which it sets to
`cursor_position_current`. -/
theorem idle_update_leaves_camera (self : CameraController) (camera : Camera)
    (h1 : self.is_up_pressed = false) (h2 : self.is_down_pressed = false)
    (h3 : self.is_forward_pressed = false) (h4 : self.is_backward_pressed = false)
    (h5 : self.is_move_left_pressed = false) (h6 : self.is_move_right_pressed = false)
    (h7 : self.is_move_up_pressed = false) (h8 : self.is_move_down_pressed = false)
    (h9 : self.is_left_pressed = false) (h10 : self.is_right_pressed = false)
    (h11 : self.is_middle_pressed = false) (h12 : self.is_wheel_scrolled = false)
    (h13 : self.is_camera_front_pressed = false) (h14 : self.is_camera_right_pressed = false)
    (h15 : self.is_camera_top_pressed = false) :
    self.update_camera camera =
      ({ self with cursor_position_before := self.cursor_position_current }, camera) :=
  update_camera_inactive self camera h1 h2 h3 h4 h5 h6 h7 h8 h9 h10 h11 h12 h13 h14 h15

/-- Witness for C10: the freshly constructed controller (all flags clear)
leaves the fresh camera untouched and returns the controller unchanged
(cursor positions both `(0,0)`). -/
theorem idle_update_leaves_camera_witness :
    (CameraController.new 0.2 (800, 600)).update_camera (Camera.new (800, 600)) =
      (CameraController.new 0.2 (800, 600), Camera.new (800, 600)) := by
  have h := idle_update_leaves_camera (CameraController.new 0.2 (800, 600))
    (Camera.new (800, 600)) rfl rfl rfl rfl rfl rfl rfl rfl rfl rfl rfl rfl rfl rfl rfl
  simpa [CameraController.new] using h

/-- C4: with a pending wheel scroll and no other input flag, `update_camera`
moves the eye by `forward / 10 * scroll` (`forward = target - eye` at entry),
leaves target, up and projection unchanged, resets the scroll delta and the
scrolled flag, and a second `update_camera` with no new scroll event leaves
the camera unchanged. -/
theorem dolly_scroll (self : CameraController) (camera : Camera)
    (h1 : self.is_up_pressed = false) (h2 : self.is_down_pressed = false)
    (h3 : self.is_forward_pressed = false) (h4 : self.is_backward_pressed = false)
    (h5 : self.is_move_left_pressed = false) (h6 : self.is_move_right_pressed = false)
    (h7 : self.is_move_up_pressed = false) (h8 : self.is_move_down_pressed = false)
    (h9 : self.is_left_pressed = false) (h10 : self.is_right_pressed = false)
    (h11 : self.is_middle_pressed = false) (hw : self.is_wheel_scrolled = true)
    (h13 : self.is_camera_front_pressed = false) (h14 : self.is_camera_right_pressed = false)
    (h15 : self.is_camera_top_pressed = false) :
    (self.update_camera camera).2.eye =
        camera.eye + (camera.target - camera.eye) / (10 : ℝ) * self.scroll ∧
    (self.update_camera camera).2.target = camera.target ∧
    (self.update_camera camera).2.up = camera.up ∧
    (self.update_camera camera).2.projection = camera.projection ∧
    (self.update_camera camera).1.scroll = 0 ∧
    (self.update_camera camera).1.is_wheel_scrolled = false ∧
    ((self.update_camera camera).1.update_camera (self.update_camera camera).2).2 =
      (self.update_camera camera).2 := by
  have key : self.update_camera camera =
      ({ self with
         is_wheel_scrolled := false, scroll := 0,
         cursor_position_before := self.cursor_position_current },
       { camera with
         eye := camera.eye + (camera.target - camera.eye) / (10 : ℝ) * self.scroll }) := by
    rcases le_or_lt 0 self.scroll with hs | hs
    · simp [CameraController.update_camera, h1, h2, h3, h4, h5, h6, h7, h8, h9, h10,
        h11, hw, h13, h14, h15, hs]
    · simp [CameraController.update_camera, h1, h2, h3, h4, h5, h6, h7, h8, h9, h10,
        h11, hw, h13, h14, h15, not_le.mpr hs, hs]
  rw [key]
  refine ⟨rfl, rfl, rfl, rfl, rfl, rfl, ?_⟩
  exact congrArg Prod.snd
    (update_camera_inactive _ _ h1 h2 h3 h4 h5 h6 h7 h8 h9 h10 h11 rfl h13 h14 h15)

/-- Witness for C4: scrolling `+1.0` from the initial camera moves the eye by
`forward / 10`, zeroes the delta, and a second update with no new scroll
event leaves the camera where it is. -/
theorem dolly_scroll_witness :
    (ctl_scroll_one.update_camera (Camera.new (800, 600))).2.eye =
        (Camera.new (800, 600)).eye +
          ((Camera.new (800, 600)).target - (Camera.new (800, 600)).eye) / (10 : ℝ) *
            ctl_scroll_one.scroll ∧
    (ctl_scroll_one.update_camera (Camera.new (800, 600))).1.scroll = 0 ∧
    (ctl_scroll_one.update_camera (Camera.new (800, 600))).1.is_wheel_scrolled = false ∧
    ((ctl_scroll_one.update_camera (Camera.new (800, 600))).1.update_camera
        (ctl_scroll_one.update_camera (Camera.new (800, 600))).2).2 =
      (ctl_scroll_one.update_camera (Camera.new (800, 600))).2 := by
  have h := dolly_scroll ctl_scroll_one (Camera.new (800, 600))
    rfl rfl rfl rfl rfl rfl rfl rfl rfl rfl rfl rfl rfl rfl rfl
  exact ⟨h.1, h.2.2.2.2.1, h.2.2.2.2.2.1, h.2.2.2.2.2.2⟩

/-- C2 fails on the code: the `is_camera_right_pressed` view snap at
`camera.rs:330` sets `up = (0., 2., 0.)`, whose length is `2`, so
`||up| - 1| < 1e-5` does not hold after that `update_camera` call (the
sibling front and top snaps set unit vectors, so this is a slip in the
code).  This theorem evaluates the embedded code at the failing input. -/
theorem snap_right_up_vector_not_unit :
    ((ctl_snap_right.update_camera cam_front_of_origin).2.up = V3.mk 0 2 0) ∧
    V3.magnitude (V3.mk 0 2 0) = 2 ∧
    ¬ |V3.magnitude ((ctl_snap_right.update_camera cam_front_of_origin).2.up) - 1| < 1e-5 := by
  have hup : (ctl_snap_right.update_camera cam_front_of_origin).2.up = V3.mk 0 2 0 := by
    simp [CameraController.update_camera, ctl_snap_right, CameraController.new]
  have hmag : V3.magnitude (V3.mk 0 2 0) = 2 := by
    simp only [V3.magnitude, V3.magnitude2, V3.dot]
    rw [show (0 * 0 + 2 * 2 + 0 * 0 : ℝ) = 2 ^ 2 by norm_num]
    exact Real.sqrt_sq (by norm_num)
  refine ⟨hup, hmag, ?_⟩
  rw [hup, hmag]
  norm_num

/-- C8 fails on the code: `update_camera` does not guard against zero-length
normalization.  `let forward_norm = forward.normalize();` at `camera.rs:260`
runs on every call, so whenever `eye = target` the zero-length forward vector
is normalized (in IEEE `f32` this is `0/0 = NaN` in every component); with
`is_forward_pressed` set, the branch at `camera.rs:341` adds
`forward.normalize() * mag * 0.003` to both eye and target, propagating the
NaN into the camera state.  The theorem shows the zero-length vector heads
the list of `normalize()` arguments for every such state, and evaluates the
argument list at the failing input. -/
theorem zero_forward_is_normalized :
    (∀ (self : CameraController) (camera : Camera),
      (camera.target - camera.eye) ∈ self.update_camera_normalize_args camera) ∧
    ctl_forward.update_camera_normalize_args cam_degenerate =
      [V3.mk 0 0 0, V3.mk 0 0 0, V3.mk 0 0 0] ∧
    V3.magnitude (cam_degenerate.target - cam_degenerate.eye) = 0 := by
  refine ⟨fun self camera => ?_, ?_, ?_⟩
  · simp only [CameraController.update_camera_normalize_args]
    simp [List.mem_append]
  · simp [CameraController.update_camera_normalize_args, ctl_forward,
      CameraController.new, cam_degenerate, Camera.new]
  · simp only [cam_degenerate, Camera.new, V3.sub_mk, V3.magnitude, V3.magnitude2,
      V3.dot]
    norm_num

lemma update_camera_yaw_left (camera : Camera) :
    ctl_yaw_left.update_camera camera = (ctl_yaw_left, yaw_orbit 0.05 camera) := by
  simp [CameraController.update_camera, ctl_yaw_left, CameraController.new]

lemma yaw_orbit_target (angle : ℝ) (cam : Camera) :
    (yaw_orbit angle cam).target = cam.target := rfl

lemma yaw_orbit_radius (angle : ℝ) (cam : Camera) :
    V3.magnitude ((yaw_orbit angle cam).eye - (yaw_orbit angle cam).target) =
      V3.magnitude (cam.eye - cam.target) := by
  have h := Real.sin_sq_add_cos_sq (angle / 2)
  simp only [yaw_orbit, quartanion_matrix, rotate_quartanion, Mat3.mulVec_mk,
    V3.sub_mk, V3.magnitude, V3.magnitude2, V3.dot]
  congr 1
  linear_combination ((Real.sin (angle / 2) ^ 2 + Real.cos (angle / 2) ^ 2 + 1) *
    ((cam.target.x - cam.eye.x) ^ 2 + (cam.target.y - cam.eye.y) ^ 2 +
      (cam.target.z - cam.eye.z) ^ 2)) * h

lemma yaw_orbit_eye_rotY (cam : Camera) (h : cam.target = V3.mk 0 0 0) :
    (yaw_orbit 0.05 cam).eye = rotY 0.05 cam.eye := by
  have h1 := Real.sin_sq_add_cos_sq (0.05 / 2)
  have hc : Real.cos (0.05 / 2) ^ 2 - Real.sin (0.05 / 2) ^ 2 = Real.cos 0.05 := by
    rw [← Real.cos_two_mul']
    norm_num
  have hs : 2 * Real.sin (0.05 / 2) * Real.cos (0.05 / 2) = Real.sin 0.05 := by
    rw [← Real.sin_two_mul]
    norm_num
  simp only [yaw_orbit, rotY, quartanion_matrix, rotate_quartanion, Mat3.mulVec_mk,
    V3.sub_mk, h, V3.mk.injEq]
  refine ⟨?_, ?_, ?_⟩
  · linear_combination cam.eye.x * hc - cam.eye.z * hs
  · linear_combination cam.eye.y * h1
  · linear_combination cam.eye.x * hs + cam.eye.z * hc

lemma rotY_rotY (a b : ℝ) (v : V3 ℝ) : rotY a (rotY b v) = rotY (a + b) v := by
  simp only [rotY, Real.cos_add, Real.sin_add, V3.mk.injEq]
  refine ⟨by ring, trivial, by ring⟩

lemma rotY_quarter_moves : rotY 0.25 (V3.mk 3 4 (-6)) ≠ V3.mk 3 4 (-6) := by
  intro h
  have hpi := Real.pi_gt_three
  have hS : 0 < Real.sin 0.25 :=
    Real.sin_pos_of_pos_of_lt_pi (by norm_num) (by linarith)
  simp only [rotY, V3.mk.injEq] at h
  obtain ⟨hx, -, hz⟩ := h
  nlinarith [hx, hz, hS]

/-- C3: each yaw-orbit step of `update_camera` (eye set to
`target - R * (target - eye)` with `R` built from the quaternion
`(sin(θ/2)·axis, cos(θ/2))` for the world-up axis) preserves the orbit
radius `|eye - target|` exactly; in particular five successive yaw-orbit
steps of fixed angle `0.05` from `eye = (3,4,-6)`, `target = (0,0,0)` leave
the radius unchanged (so certainly within `1e-4`) while the eye itself
moves. -/
theorem yaw_orbit_radius_invariant :
    (∀ cam : Camera,
        V3.magnitude ((ctl_yaw_left.update_camera cam).2.eye -
            (ctl_yaw_left.update_camera cam).2.target) =
          V3.magnitude (cam.eye - cam.target)) ∧
    |V3.magnitude ((yaw_steps 5).2.eye - (yaw_steps 5).2.target) -
        V3.magnitude ((yaw_steps 0).2.eye - (yaw_steps 0).2.target)| < 1e-4 ∧
    (yaw_steps 5).2.eye ≠ (yaw_steps 0).2.eye := by
  have hstep : ∀ cam : Camera,
      V3.magnitude ((ctl_yaw_left.update_camera cam).2.eye -
          (ctl_yaw_left.update_camera cam).2.target) =
        V3.magnitude (cam.eye - cam.target) := by
    intro cam
    rw [update_camera_yaw_left]
    exact yaw_orbit_radius 0.05 cam
  have h5 : yaw_steps 5 =
      (ctl_yaw_left,
       yaw_orbit 0.05 (yaw_orbit 0.05 (yaw_orbit 0.05 (yaw_orbit 0.05
         (yaw_orbit 0.05 (Camera.new (800, 600))))))) := by
    simp only [yaw_steps, update_camera_yaw_left]
  have h0 : yaw_steps 0 = (ctl_yaw_left, Camera.new (800, 600)) := rfl
  refine ⟨hstep, ?_, ?_⟩
  · rw [h5, h0]
    rw [yaw_orbit_radius, yaw_orbit_radius, yaw_orbit_radius, yaw_orbit_radius,
      yaw_orbit_radius, sub_self, abs_zero]
    norm_num
  · rw [h5, h0]
    have he : (yaw_orbit 0.05 (yaw_orbit 0.05 (yaw_orbit 0.05 (yaw_orbit 0.05
        (yaw_orbit 0.05 (Camera.new (800, 600))))))).eye =
        rotY 0.25 (V3.mk 3 4 (-6)) := by
      rw [yaw_orbit_eye_rotY _ rfl, yaw_orbit_eye_rotY _ rfl, yaw_orbit_eye_rotY _ rfl,
        yaw_orbit_eye_rotY _ rfl, yaw_orbit_eye_rotY _ rfl,
        rotY_rotY, rotY_rotY, rotY_rotY, rotY_rotY]
      norm_num
      rfl
    rw [he]
    exact rotY_quarter_moves
